import Mathlib

/-!
Verification development for the PushT dataset-materialization pipeline
(`lerobot/common/datasets/pusht.py`, class `PushtExperienceReplay`).

The embedding models:
- per-frame reward/success labeling (`_download_and_preproc`, the per-frame
  physics loop): the geometric coverage computation is delegated to the
  external physics/geometry oracle (pymunk + shapely), so it is abstracted
  as a function `cov : Pose → ℚ`; everything downstream of `coverage`
  (clip, threshold comparison) is embedded exactly;
- episode segmentation and transition-record assembly (the `TensorDict`
  built per episode, pairing frame i as "current" with frame i+1 as "next");
- the fixed-capacity store allocation and the contiguous write loop
  (`td_data = episode[0].expand(total_frames).memmap_like(...)`, then
  `td_data[idxtd : idxtd + len(episode)] = episode`);
- the constructor's argument validation and idempotency dispatch
  (`__init__` and `_is_downloaded`);
- the modality length-consistency assert.

Machine floats are modelled as ℚ; image frames and action vectors are
opaque payloads (the build only slices and copies them), modelled as ℕ ids.
-/

namespace Pusht

/-- Source constant `SUCCESS_THRESHOLD = 0.95` (95% coverage). -/
def SUCCESS_THRESHOLD : ℚ := 95 / 100

/-- One row of the raw `state` array: 5 columns
(agent x, agent y, block x, block y, block angle). -/
structure StateVec where
  s0 : ℚ
  s1 : ℚ
  s2 : ℚ
  s3 : ℚ
  s4 : ℚ
deriving DecidableEq, Inhabited

/-- Source: `agent_pos = state[:, :2]`. -/
def agent_pos (s : StateVec) : ℚ × ℚ := (s.s0, s.s1)

/-- Source: `block_pos = state[:, 2:4]`. -/
def block_pos (s : StateVec) : ℚ × ℚ := (s.s2, s.s3)

/-- Source: `block_angle = state[:, 4]`. -/
def block_angle (s : StateVec) : ℚ := s.s4

/-- The object pose handed to the per-frame physics scene:
`add_tee(space, block_pos[i].tolist(), block_angle[i].item())`. -/
structure Pose where
  pos : ℚ × ℚ
  angle : ℚ
deriving DecidableEq

/-- The object pose read off a frame's state row. -/
def blockPose (s : StateVec) : Pose := ⟨block_pos s, block_angle s⟩

/-- One raw frame: one index into each modality array (`img`, `state`,
`action`).  Images and actions are opaque payloads for the build. -/
structure FrameData where
  img : Nat
  state : StateVec
  action : Nat
deriving DecidableEq, Inhabited

/-- `np.clip(x, lo, hi)`: `min(max(x, lo), hi)`. -/
def np_clip (x lo hi : ℚ) : ℚ := min (max x lo) hi

/-- Per-frame reward (source line `reward[i] = np.clip(coverage /
SUCCESS_THRESHOLD, 0, 1)`).  The scene built for frame `i` depends on
constants (walls, goal body, T-shape geometry) and on that frame's object
pose only, so `coverage` is a function of the pose. -/
def labelReward (cov : Pose → ℚ) (f : FrameData) : ℚ :=
  np_clip (cov (blockPose f.state) / SUCCESS_THRESHOLD) 0 1

/-- Per-frame success flag (source line `success[i] = coverage >
SUCCESS_THRESHOLD`). -/
def labelSuccess (cov : Pose → ℚ) (f : FrameData) : Bool :=
  decide (cov (blockPose f.state) > SUCCESS_THRESHOLD)

/-- The episode's reward vector: the loop `for i in range(num_frames)`
fills `reward[i]` from frame `i` alone. -/
def episodeRewards (cov : Pose → ℚ) (fs : List FrameData) : List ℚ :=
  fs.map (labelReward cov)

/-- The episode's success vector, filled by the same loop. -/
def episodeSuccess (cov : Pose → ℚ) (fs : List FrameData) : List Bool :=
  fs.map (labelSuccess cov)

/-- The episode's done vector: `done = torch.zeros(num_frames, 1,
dtype=torch.bool)` then `done[-1] = True`. -/
def episodeDone (num_frames : Nat) : List Bool :=
  (List.replicate num_frames false).set (num_frames - 1) true

/-- One transition record: one row of the per-episode `TensorDict`. -/
structure TransitionRecord where
  obs_image : Nat
  obs_state : ℚ × ℚ
  action : Nat
  episode : Nat
  frame_id : Nat
  next_image : Nat
  next_state : ℚ × ℚ
  next_reward : ℚ
  next_done : Bool
  next_success : Bool
deriving DecidableEq, Inhabited

/-- The per-episode `TensorDict` of `batch_size = num_frames - 1`: row `k`
pairs frame `k` (fields `image[:-1]`, `agent_pos[:-1]`, `action[:-1]`)
with frame `k+1` (fields `image[1:]`, `agent_pos[1:]`, `reward[1:]`,
`done[1:]`, `success[1:]`).  The `episode` column is
`episode_ids[idx0:idx1][:-1]`, which the loop's assert pins to
`episode_id`; `frame_id` is `torch.arange(0, num_frames - 1, 1)`. -/
def buildEpisode (cov : Pose → ℚ) (episode_id : Nat) (fs : List FrameData) :
    List TransitionRecord :=
  (List.range (fs.length - 1)).map fun k =>
    { obs_image := (fs.getD k default).img
      obs_state := agent_pos (fs.getD k default).state
      action := (fs.getD k default).action
      episode := episode_id
      frame_id := k
      next_image := (fs.getD (k + 1) default).img
      next_state := agent_pos (fs.getD (k + 1) default).state
      next_reward := (episodeRewards cov fs).getD (k + 1) 0
      next_done := (episodeDone fs.length).getD (k + 1) false
      next_success := (episodeSuccess cov fs).getD (k + 1) false }

/-- The raw capture after modality fusion: per-frame data plus the
`episode_ends` boundary indices from the zarr metadata
(`dataset_dict.meta["episode_ends"]`).  `total_frames =
dataset_dict["action"].shape[0] = frames.length`. -/
structure RawData where
  frames : List FrameData
  episodeEnds : List Nat
deriving DecidableEq

/-- The slice `[idx0:idx1]` of the fused per-frame arrays. -/
def episodeSlice (frames : List FrameData) (idx0 idx1 : Nat) : List FrameData :=
  (frames.drop idx0).take (idx1 - idx0)

/-- The pre-allocated memmapped store: `total_frames` rows, each either
still unwritten (`none`) or holding a copied transition record.  Models
`td_data = episode[0].expand(total_frames).memmap_like(...)` plus the
block assignments. -/
structure Store where
  data : List (Option TransitionRecord)
deriving DecidableEq

/-- One block assignment `td_data[idxtd : idxtd + len(episode)] = episode`. -/
def writeAt (s : List (Option TransitionRecord)) (idxtd : Nat)
    (block : List TransitionRecord) : List (Option TransitionRecord) :=
  s.take idxtd ++ block.map some ++ s.drop (idxtd + block.length)

/-- The episode loop of `_download_and_preproc`: iterate over
`episode_ends`, slice `[idx0:idx1]`, build the episode's records, write
them at cursor `idxtd`, then advance `idx0 := idx1` and
`idxtd := idxtd + len(episode)`. -/
def buildLoop (cov : Pose → ℚ) (frames : List FrameData) :
    List Nat → Nat → Nat → Nat → List (Option TransitionRecord) →
    List (Option TransitionRecord)
  | [], _, _, _, s => s
  | idx1 :: rest, idx0, episode_id, idxtd, s =>
    let ep := buildEpisode cov episode_id (episodeSlice frames idx0 idx1)
    buildLoop cov frames rest idx1 (episode_id + 1) (idxtd + ep.length)
      (writeAt s idxtd ep)

/-- The whole preprocessing pass (lines 190-289 of the source, after the
download): allocate `total_frames` rows, run the episode loop from
`idx0 = 0`, `episode_id = 0`, `idxtd = 0`, and return the locked storage
over the full `td_data`. -/
def download_and_preproc (cov : Pose → ℚ) (raw : RawData) : Store :=
  ⟨buildLoop cov raw.frames raw.episodeEnds 0 0 0
    (List.replicate raw.frames.length none)⟩

/-- `num_samples = len(self)`: the length of the returned
`TensorStorage(td_data.lock_())`, i.e. the batch size of the full
`td_data`, slack rows included. -/
def num_samples (s : Store) : Nat := s.data.length

/-- The number of rows actually written by the episode loop. -/
def writtenCount (s : Store) : Nat := (s.data.filter Option.isSome).length

/-- `_is_downloaded`: the sole idempotency signal is whether the canonical
path `<root>/<dataset_id>` is a directory; the filesystem at that path is
modelled as `Option Store` (a persisted store or nothing). -/
def is_downloaded (fsAtPath : Option Store) : Bool := fsAtPath.isSome

/-- Outcome of the storage-selection step of `__init__`. -/
structure BuildResult where
  storage : Store
  fsAfter : Option Store
  didBuild : Bool
deriving DecidableEq

/-- Lines 130-133 of `__init__`: if `not self._is_downloaded()`, run
`_download_and_preproc` (download, label, write, persist at the canonical
path); otherwise load the persisted memmap directly, touching nothing. -/
def openOrBuild (cov : Pose → ℚ) (raw : RawData) (fsAtPath : Option Store) :
    BuildResult :=
  match fsAtPath with
  | some s => { storage := s, fsAfter := some s, didBuild := false }
  | none =>
    let st := download_and_preproc cov raw
    { storage := st, fsAfter := some st, didBuild := true }

/-- The errors `__init__` can raise during argument validation. -/
inductive InitError where
  | streamingNotImplemented
  | slicesValueError
  | splitTrajsNotImplemented
deriving DecidableEq

/-- Argument-validation steps of `__init__`, in source order: line 109
`if streaming: raise NotImplementedError`; lines 120-121 `if
(num_slices is not None) and (slice_len is not None): raise ValueError`;
lines 122-123 `if split_trajs: raise NotImplementedError`. -/
def initChecks (streaming : Bool) (num_slices slice_len : Option Nat)
    (split_trajs : Bool) : Except InitError Unit :=
  if streaming then .error .streamingNotImplemented
  else if num_slices.isSome && slice_len.isSome then .error .slicesValueError
  else if split_trajs then .error .splitTrajsNotImplemented
  else .ok ()

/-- The constructor: argument validation happens before the root-path
handling and the `_is_downloaded` dispatch, so an early error leaves the
filesystem untouched and produces no storage. -/
def constructorRun (cov : Pose → ℚ) (raw : RawData) (fsAtPath : Option Store)
    (streaming : Bool) (num_slices slice_len : Option Nat)
    (split_trajs : Bool) : Except InitError Store × Option Store :=
  match initChecks streaming num_slices slice_len split_trajs with
  | .error e => (.error e, fsAtPath)
  | .ok _ =>
    let r := openOrBuild cov raw fsAtPath
    (.ok r.storage, r.fsAfter)

/-- The modality length-consistency assert, line 204-206:
`assert len({dataset_dict[key].shape[0] for key in dataset_dict.keys()})`.
The Python set of per-modality lengths is `lengths.dedup`; `assert n`
passes iff `n` is truthy, i.e. iff the set is nonempty. -/
def lengthCheckPasses (modalityLengths : List Nat) : Bool :=
  modalityLengths.dedup.length != 0

/-! Concrete test capture: 2 episodes of 5 frames each, boundaries [5, 10],
with a trivially computable coverage oracle. -/

/-- A concrete raw frame with distinct payloads per index. -/
def mkFrame (j : Nat) : FrameData :=
  { img := 100 + j
    state := ⟨j, j + 1, j + 2, j + 3, j + 4⟩
    action := 200 + j }

/-- Ten concrete frames. -/
def frames10 : List FrameData := (List.range 10).map mkFrame

/-- Episode boundaries at frames 5 and 10. -/
def ends2 : List Nat := [5, 10]

/-- The concrete raw capture of the end-to-end scenario. -/
def raw10 : RawData := ⟨frames10, ends2⟩

/-- A concrete coverage oracle: coverage grows with the block x
coordinate, crossing the success threshold. -/
def cov0 : Pose → ℚ := fun p => p.pos.1 / 8

/-- The store materialized from the concrete capture. -/
def store10 : Store := download_and_preproc cov0 raw10

/-- A three-frame episode slice used to instantiate episode-level claims. -/
def frames3 : List FrameData := [mkFrame 0, mkFrame 1, mkFrame 2]

/-! Layout-analysis definitions: the per-episode record blocks and their
start offsets inside the written region of the store. -/

/-- The per-episode record blocks in loop order: block `e` is built with
`episode_id = eid + e` from the slice ending at the `e`-th remaining
boundary. -/
def epBlocks (cov : Pose → ℚ) (frames : List FrameData) :
    List Nat → Nat → Nat → List (List TransitionRecord)
  | [], _, _ => []
  | idx1 :: rest, idx0, episode_id =>
    buildEpisode cov episode_id (episodeSlice frames idx0 idx1) ::
      epBlocks cov frames rest idx1 (episode_id + 1)

/-- The record blocks of the full build (`idx0 = 0`, `episode_id = 0`). -/
def storeBlocks (cov : Pose → ℚ) (raw : RawData) : List (List TransitionRecord) :=
  epBlocks cov raw.frames raw.episodeEnds 0 0

/-- Start offset of block `e` inside the written region: the sum of the
lengths of the blocks before it (the value of the `idxtd` cursor when
episode `e` is written). -/
def blockStart (L : List (List TransitionRecord)) (e : Nat) : Nat :=
  ((L.take e).map List.length).sum

/-- The raw-frame start index (`idx0`) of episode `e`: the running start
for `e = 0`, else the `(e-1)`-th boundary. -/
def rawStart (ends : List Nat) (idx0 : Nat) : Nat → Nat
  | 0 => idx0
  | e + 1 => ends.getD e 0

/-! Helper lemmas. -/

theorem length_buildEpisode (cov : Pose → ℚ) (eid : Nat) (fs : List FrameData) :
    (buildEpisode cov eid fs).length = fs.length - 1 := by
  simp [buildEpisode]

theorem buildEpisode_getD (cov : Pose → ℚ) (eid : Nat) (fs : List FrameData)
    (k : Nat) (hk : k < fs.length - 1) :
    (buildEpisode cov eid fs).getD k default =
      { obs_image := (fs.getD k default).img
        obs_state := agent_pos (fs.getD k default).state
        action := (fs.getD k default).action
        episode := eid
        frame_id := k
        next_image := (fs.getD (k + 1) default).img
        next_state := agent_pos (fs.getD (k + 1) default).state
        next_reward := (episodeRewards cov fs).getD (k + 1) 0
        next_done := (episodeDone fs.length).getD (k + 1) false
        next_success := (episodeSuccess cov fs).getD (k + 1) false } := by
  rw [buildEpisode, List.getD_eq_getElem?_getD, List.getElem?_map,
    List.getElem?_range hk]
  rfl

theorem episodeRewards_getD (cov : Pose → ℚ) (fs : List FrameData) (i : Nat)
    (hi : i < fs.length) :
    (episodeRewards cov fs).getD i 0 = labelReward cov (fs.getD i default) := by
  rw [episodeRewards, List.getD_eq_getElem?_getD, List.getElem?_map,
    List.getElem?_eq_getElem hi, List.getD_eq_getElem fs default hi]
  rfl

theorem episodeSuccess_getD (cov : Pose → ℚ) (fs : List FrameData) (i : Nat)
    (hi : i < fs.length) :
    (episodeSuccess cov fs).getD i false = labelSuccess cov (fs.getD i default) := by
  rw [episodeSuccess, List.getD_eq_getElem?_getD, List.getElem?_map,
    List.getElem?_eq_getElem hi, List.getD_eq_getElem fs default hi]
  rfl

theorem episodeDone_getD (F j : Nat) (hj : j < F) :
    (episodeDone F).getD j false = decide (j = F - 1) := by
  rw [episodeDone, List.getD_eq_getElem?_getD, List.getElem?_set]
  by_cases h : F - 1 = j
  · rw [if_pos h, if_pos (by rw [List.length_replicate]; omega)]
    simp only [Option.getD_some]
    symm
    simp only [decide_eq_true_eq]
    omega
  · rw [if_neg h, List.getElem?_replicate, if_pos hj]
    simp only [Option.getD_some]
    symm
    simp only [decide_eq_false_iff_not]
    omega

theorem length_writeAt (s : List (Option TransitionRecord)) (idxtd : Nat)
    (b : List TransitionRecord) (h : idxtd + b.length ≤ s.length) :
    (writeAt s idxtd b).length = s.length := by
  simp only [writeAt, List.length_append, List.length_take, List.length_drop,
    List.length_map]
  omega

theorem take_writeAt (s : List (Option TransitionRecord)) (idxtd : Nat)
    (b : List TransitionRecord) (h : idxtd ≤ s.length) :
    (writeAt s idxtd b).take (idxtd + b.length) = s.take idxtd ++ b.map some := by
  rw [writeAt, List.append_assoc,
    show idxtd + b.length = (s.take idxtd).length + b.length by
      rw [List.length_take]; omega,
    List.take_append]
  congr 1
  rw [show b.length = (b.map some).length from (List.length_map b some).symm,
    List.take_left]

theorem drop_writeAt (s : List (Option TransitionRecord)) (idxtd : Nat)
    (b : List TransitionRecord) (m : Nat) (h : idxtd ≤ s.length) :
    (writeAt s idxtd b).drop (idxtd + b.length + m) =
      s.drop (idxtd + b.length + m) := by
  rw [writeAt, List.append_assoc,
    show idxtd + b.length + m = (s.take idxtd).length + (b.length + m) by
      rw [List.length_take]; omega,
    List.drop_append,
    show b.length + m = (b.map some).length + m by rw [List.length_map],
    List.drop_append, List.drop_drop]
  congr 1
  rw [List.length_take, List.length_map]
  omega

theorem buildLoop_eq (cov : Pose → ℚ) (frames : List FrameData)
    (ends : List Nat) :
    ∀ (idx0 eid idxtd : Nat) (s : List (Option TransitionRecord)),
      idxtd + ((epBlocks cov frames ends idx0 eid).flatten).length ≤ s.length →
      buildLoop cov frames ends idx0 eid idxtd s =
        s.take idxtd ++ ((epBlocks cov frames ends idx0 eid).flatten).map some ++
          s.drop (idxtd + ((epBlocks cov frames ends idx0 eid).flatten).length) := by
  induction ends with
  | nil =>
    intro idx0 eid idxtd s h
    simp only [buildLoop, epBlocks, List.flatten_nil, List.map_nil,
      List.length_nil, Nat.add_zero, List.append_nil]
    exact (List.take_append_drop idxtd s).symm
  | cons idx1 rest ih =>
    intro idx0 eid idxtd s h
    have hflat : (epBlocks cov frames (idx1 :: rest) idx0 eid).flatten =
        buildEpisode cov eid (episodeSlice frames idx0 idx1) ++
          (epBlocks cov frames rest idx1 (eid + 1)).flatten := by
      simp [epBlocks]
    rw [hflat] at h
    have hlen : idxtd + (buildEpisode cov eid (episodeSlice frames idx0 idx1)).length +
        ((epBlocks cov frames rest idx1 (eid + 1)).flatten).length ≤ s.length := by
      rw [List.length_append] at h; omega
    have hW : (writeAt s idxtd (buildEpisode cov eid (episodeSlice frames idx0 idx1))).length
        = s.length :=
      length_writeAt s idxtd _ (by omega)
    have hrec := ih idx1 (eid + 1)
      (idxtd + (buildEpisode cov eid (episodeSlice frames idx0 idx1)).length)
      (writeAt s idxtd (buildEpisode cov eid (episodeSlice frames idx0 idx1)))
      (by rw [hW]; omega)
    show buildLoop cov frames (idx1 :: rest) idx0 eid idxtd s = _
    rw [buildLoop, hrec, take_writeAt s idxtd _ (by omega),
      drop_writeAt s idxtd _ _ (by omega), hflat]
    simp only [List.map_append, List.length_append, List.append_assoc,
      Nat.add_assoc]

theorem preproc_data_eq (cov : Pose → ℚ) (raw : RawData)
    (h : ((storeBlocks cov raw).flatten).length ≤ raw.frames.length) :
    (download_and_preproc cov raw).data =
      ((storeBlocks cov raw).flatten).map some ++
        List.replicate
          (raw.frames.length - ((storeBlocks cov raw).flatten).length) none := by
  rw [download_and_preproc]
  rw [buildLoop_eq cov raw.frames raw.episodeEnds 0 0 0
    (List.replicate raw.frames.length none)
    (by rw [List.length_replicate]; simpa [storeBlocks] using h)]
  rw [storeBlocks] at h ⊢
  simp [List.drop_replicate]

theorem epBlocks_length (cov : Pose → ℚ) (frames : List FrameData)
    (ends : List Nat) :
    ∀ (idx0 eid : Nat), (epBlocks cov frames ends idx0 eid).length = ends.length := by
  induction ends with
  | nil => intro idx0 eid; simp [epBlocks]
  | cons idx1 rest ih => intro idx0 eid; simp [epBlocks, ih idx1 (eid + 1)]

theorem length_episodeSlice (frames : List FrameData) (idx0 idx1 : Nat)
    (h0 : idx0 ≤ idx1) (h1 : idx1 ≤ frames.length) :
    (episodeSlice frames idx0 idx1).length = idx1 - idx0 := by
  simp only [episodeSlice, List.length_take, List.length_drop]
  omega

theorem flatLen_valid (cov : Pose → ℚ) (frames : List FrameData)
    (ends : List Nat) :
    ∀ (idx0 eid : Nat), List.Chain' (· < ·) (idx0 :: ends) →
      (∀ x ∈ ends, x ≤ frames.length) →
      ((epBlocks cov frames ends idx0 eid).flatten).length + ends.length + idx0 =
        ends.getLastD idx0 := by
  induction ends with
  | nil => intro idx0 eid _ _; simp [epBlocks]
  | cons idx1 rest ih =>
    intro idx0 eid hchain hb
    have h01 : idx0 < idx1 := (List.chain'_cons.mp hchain).1
    have hchain' : List.Chain' (· < ·) (idx1 :: rest) := (List.chain'_cons.mp hchain).2
    have hb1 : idx1 ≤ frames.length := hb idx1 (by simp)
    have hb' : ∀ x ∈ rest, x ≤ frames.length := fun x hx => hb x (by simp [hx])
    have ihh := ih idx1 (eid + 1) hchain' hb'
    have hslice := length_episodeSlice frames idx0 idx1 (by omega) hb1
    simp only [epBlocks, List.flatten_cons, List.length_append, length_buildEpisode,
      hslice, List.length_cons, List.getLastD_cons]
    omega

theorem blockStart_zero (L : List (List TransitionRecord)) : blockStart L 0 = 0 := by
  simp [blockStart]

theorem blockStart_succ (L : List (List TransitionRecord)) (e : Nat)
    (he : e < L.length) :
    blockStart L (e + 1) = blockStart L e + (L.getD e []).length := by
  rw [blockStart, blockStart, List.map_take, List.map_take,
    List.sum_take_succ _ e (by simpa using he)]
  congr 1
  rw [List.getElem_map, List.getD_eq_getElem L [] he]

theorem blockStart_add_le (L : List (List TransitionRecord)) (e : Nat)
    (he : e < L.length) :
    blockStart L e + (L.getD e []).length ≤ L.flatten.length := by
  rw [← blockStart_succ L e he, List.length_flatten, blockStart]
  calc ((L.take (e + 1)).map List.length).sum
      ≤ ((L.take (e + 1)).map List.length).sum + ((L.drop (e + 1)).map List.length).sum :=
        Nat.le_add_right _ _
    _ = (L.map List.length).sum := by
        rw [← List.sum_append, ← List.map_append, List.take_append_drop]

theorem flatten_getD (d : TransitionRecord) (L : List (List TransitionRecord)) :
    ∀ (e k : Nat), e < L.length → k < (L.getD e []).length →
      L.flatten.getD (blockStart L e + k) d = (L.getD e []).getD k d := by
  induction L with
  | nil => intro e k he _; simp at he
  | cons hd tl ih =>
    intro e k he hk
    cases e with
    | zero =>
      have hk' : k < hd.length := by simpa using hk
      rw [blockStart_zero, Nat.zero_add, List.flatten_cons,
        List.getD_eq_getElem?_getD, List.getElem?_append_left hk']
      simp [List.getD_eq_getElem?_getD]
    | succ e' =>
      have he' : e' < tl.length := by simpa using he
      have hbs : blockStart (hd :: tl) (e' + 1) = hd.length + blockStart tl e' := by
        simp [blockStart, List.take_succ_cons]
      rw [hbs, List.flatten_cons, List.getD_eq_getElem?_getD,
        List.getElem?_append_right (by omega),
        show hd.length + blockStart tl e' + k - hd.length = blockStart tl e' + k by omega,
        ← List.getD_eq_getElem?_getD]
      simpa using ih e' k he' (by simpa using hk)

theorem epBlocks_getD (cov : Pose → ℚ) (frames : List FrameData)
    (ends : List Nat) :
    ∀ (idx0 eid e : Nat), e < ends.length →
      (epBlocks cov frames ends idx0 eid).getD e [] =
        buildEpisode cov (eid + e)
          (episodeSlice frames (rawStart ends idx0 e) (ends.getD e 0)) := by
  induction ends with
  | nil => intro _ _ e he; simp at he
  | cons idx1 rest ih =>
    intro idx0 eid e he
    cases e with
    | zero => simp [epBlocks, rawStart]
    | succ e' =>
      have he' : e' < rest.length := by simpa using he
      have harg : rawStart (idx1 :: rest) idx0 (e' + 1) = rawStart rest idx1 e' := by
        cases e' <;> simp [rawStart]
      rw [show eid + (e' + 1) = (eid + 1) + e' by omega, harg]
      simpa [epBlocks] using ih idx1 (eid + 1) e' he'

theorem writtenCount_preproc (cov : Pose → ℚ) (raw : RawData)
    (h : ((storeBlocks cov raw).flatten).length ≤ raw.frames.length) :
    writtenCount (download_and_preproc cov raw) =
      ((storeBlocks cov raw).flatten).length := by
  rw [writtenCount, preproc_data_eq cov raw h, List.filter_append]
  have h1 : ∀ (l : List TransitionRecord),
      (l.map some).filter Option.isSome = l.map some := by
    intro l
    induction l with
    | nil => rfl
    | cons a t iht => simp [iht]
  have h2 : ∀ n, (List.replicate n (none : Option TransitionRecord)).filter
      Option.isSome = [] := by
    intro n
    induction n with
    | zero => rfl
    | succ n ihn => simp [List.replicate_succ, ihn]
  rw [h1, h2, List.append_nil, List.length_map]

/-! Claim theorems. -/

/-- Claim C1: an episode of `F ≥ 2` raw frames yields exactly `F - 1`
transition records; record `k` pairs frame `k` (as "current"
observation/action) with frame `k + 1` (as "next"); consequently the
"current" index `k` never reaches `F - 1`, and the episode's final raw
frame appears exactly as the "next" of the last emitted record. -/
theorem pusht_C1_transition_pairing (cov : Pose → ℚ) (eid : Nat)
    (fs : List FrameData) (k : Nat) (hF : 2 ≤ fs.length)
    (hk : k < fs.length - 1) :
    (buildEpisode cov eid fs).length = fs.length - 1
    ∧ ((buildEpisode cov eid fs).getD k default).obs_image = (fs.getD k default).img
    ∧ ((buildEpisode cov eid fs).getD k default).obs_state =
        agent_pos (fs.getD k default).state
    ∧ ((buildEpisode cov eid fs).getD k default).action = (fs.getD k default).action
    ∧ ((buildEpisode cov eid fs).getD k default).frame_id = k
    ∧ ((buildEpisode cov eid fs).getD k default).next_image =
        (fs.getD (k + 1) default).img
    ∧ ((buildEpisode cov eid fs).getD k default).next_state =
        agent_pos (fs.getD (k + 1) default).state
    ∧ k + 1 ≤ fs.length - 1
    ∧ ((buildEpisode cov eid fs).getD (fs.length - 2) default).next_image =
        (fs.getD (fs.length - 1) default).img := by
  have h1 := buildEpisode_getD cov eid fs k hk
  have h2 := buildEpisode_getD cov eid fs (fs.length - 2) (by omega)
  refine ⟨length_buildEpisode cov eid fs, ?_, ?_, ?_, ?_, ?_, ?_, by omega, ?_⟩
  · rw [h1]
  · rw [h1]
  · rw [h1]
  · rw [h1]
  · rw [h1]
  · rw [h1]
  · rw [h2, show fs.length - 2 + 1 = fs.length - 1 by omega]

/-- Witness for C1 at a concrete 3-frame episode. -/
theorem pusht_C1_transition_pairing_witness :
    (2 ≤ frames3.length ∧ 0 < frames3.length - 1)
    ∧ ((buildEpisode cov0 7 frames3).length = frames3.length - 1
    ∧ ((buildEpisode cov0 7 frames3).getD 0 default).obs_image =
        (frames3.getD 0 default).img
    ∧ ((buildEpisode cov0 7 frames3).getD 0 default).obs_state =
        agent_pos (frames3.getD 0 default).state
    ∧ ((buildEpisode cov0 7 frames3).getD 0 default).action =
        (frames3.getD 0 default).action
    ∧ ((buildEpisode cov0 7 frames3).getD 0 default).frame_id = 0
    ∧ ((buildEpisode cov0 7 frames3).getD 0 default).next_image =
        (frames3.getD (0 + 1) default).img
    ∧ ((buildEpisode cov0 7 frames3).getD 0 default).next_state =
        agent_pos (frames3.getD (0 + 1) default).state
    ∧ 0 + 1 ≤ frames3.length - 1
    ∧ ((buildEpisode cov0 7 frames3).getD (frames3.length - 2) default).next_image =
        (frames3.getD (frames3.length - 1) default).img) :=
  ⟨⟨by decide, by decide⟩,
    pusht_C1_transition_pairing cov0 7 frames3 0 (by decide) (by decide)⟩

/-- Claim C2: the stored per-frame labels satisfy
`reward = clip(coverage / 0.95, 0, 1)` (hence `reward ∈ [0, 1]`) and
`success = (coverage > 0.95)`, and both depend only on that frame's
object pose: frames with equal object poses get equal labels, wherever
they occur. -/
theorem pusht_C2_frame_labels (cov : Pose → ℚ) (fs fs' : List FrameData)
    (i j : Nat) (hi : i < fs.length) (hj : j < fs'.length)
    (hpose : blockPose (fs.getD i default).state =
      blockPose (fs'.getD j default).state) :
    (episodeRewards cov fs).getD i 0 =
      np_clip (cov (blockPose (fs.getD i default).state) / SUCCESS_THRESHOLD) 0 1
    ∧ 0 ≤ (episodeRewards cov fs).getD i 0
    ∧ (episodeRewards cov fs).getD i 0 ≤ 1
    ∧ (episodeSuccess cov fs).getD i false =
        decide (cov (blockPose (fs.getD i default).state) > SUCCESS_THRESHOLD)
    ∧ (episodeRewards cov fs).getD i 0 = (episodeRewards cov fs').getD j 0
    ∧ (episodeSuccess cov fs).getD i false = (episodeSuccess cov fs').getD j false := by
  rw [episodeRewards_getD cov fs i hi, episodeSuccess_getD cov fs i hi,
    episodeRewards_getD cov fs' j hj, episodeSuccess_getD cov fs' j hj]
  refine ⟨rfl, ?_, ?_, rfl, ?_, ?_⟩
  · rw [labelReward, np_clip]
    exact le_min (le_max_right _ _) zero_le_one
  · rw [labelReward, np_clip]
    exact min_le_right _ _
  · rw [labelReward, labelReward, hpose]
  · rw [labelSuccess, labelSuccess, hpose]

/-- Witness for C2 at frame 1 of the concrete episode (the same pose also
occurs as frame 1 of the 10-frame capture). -/
theorem pusht_C2_frame_labels_witness :
    (1 < frames3.length ∧ 1 < frames10.length
      ∧ blockPose ((frames3.getD 1 default).state) =
          blockPose ((frames10.getD 1 default).state))
    ∧ ((episodeRewards cov0 frames3).getD 1 0 =
        np_clip (cov0 (blockPose (frames3.getD 1 default).state) / SUCCESS_THRESHOLD) 0 1
    ∧ 0 ≤ (episodeRewards cov0 frames3).getD 1 0
    ∧ (episodeRewards cov0 frames3).getD 1 0 ≤ 1
    ∧ (episodeSuccess cov0 frames3).getD 1 false =
        decide (cov0 (blockPose (frames3.getD 1 default).state) > SUCCESS_THRESHOLD)
    ∧ (episodeRewards cov0 frames3).getD 1 0 = (episodeRewards cov0 frames10).getD 1 0
    ∧ (episodeSuccess cov0 frames3).getD 1 false =
        (episodeSuccess cov0 frames10).getD 1 false) :=
  ⟨⟨by decide, by decide, rfl⟩,
    pusht_C2_frame_labels cov0 frames3 frames10 1 1 (by decide) (by decide) rfl⟩

/-- Claim C3: the stored `("next", "done")` flag of a record is true iff
the record is the last one emitted for its episode. -/
theorem pusht_C3_done_flag (cov : Pose → ℚ) (eid : Nat) (fs : List FrameData)
    (k : Nat) (hk : k < fs.length - 1) :
    ((buildEpisode cov eid fs).getD k default).next_done = true ↔
      k = (buildEpisode cov eid fs).length - 1 := by
  have hrec := buildEpisode_getD cov eid fs k hk
  simp only [hrec, length_buildEpisode]
  rw [episodeDone_getD fs.length (k + 1) (by omega)]
  simp only [decide_eq_true_eq]
  omega

/-- Witness for C3 at the last record of a concrete 3-frame episode. -/
theorem pusht_C3_done_flag_witness :
    (1 < frames3.length - 1)
    ∧ (((buildEpisode cov0 0 frames3).getD 1 default).next_done = true ↔
        1 = (buildEpisode cov0 0 frames3).length - 1) :=
  ⟨by decide, pusht_C3_done_flag cov0 0 frames3 1 (by decide)⟩

/-- Claim C6: materialization is idempotent on the sole signal of the
canonical path's contents: with a store already persisted, the
constructor returns it directly and performs no build; running the entry
point twice yields the identical store and the second run never builds. -/
theorem pusht_C6_idempotency (cov : Pose → ℚ) (raw : RawData) (s : Store)
    (fs0 : Option Store) :
    (openOrBuild cov raw (some s)).storage = s
    ∧ (openOrBuild cov raw (some s)).didBuild = false
    ∧ (openOrBuild cov raw (some s)).fsAfter = some s
    ∧ (openOrBuild cov raw (openOrBuild cov raw fs0).fsAfter).storage =
        (openOrBuild cov raw fs0).storage
    ∧ (openOrBuild cov raw (openOrBuild cov raw fs0).fsAfter).didBuild = false := by
  cases fs0 <;> simp [openOrBuild]

/-- Claim C7: the modality length-consistency assert passes for every
nonempty raw capture, mismatched lengths included — `assert len(S)` only
checks that the set of lengths is nonempty, never that it is a
singleton, so a length mismatch cannot abort the build. -/
theorem pusht_C7_length_check (modalityLengths : List Nat)
    (h : modalityLengths ≠ []) : lengthCheckPasses modalityLengths = true := by
  have hd : modalityLengths.dedup ≠ [] := fun hnil =>
    h ((List.dedup_eq_nil modalityLengths).mp hnil)
  simp only [lengthCheckPasses, bne_iff_ne, ne_eq, List.length_eq_zero]
  exact hd

/-- Witness for C7: a capture whose modalities have 3 and 2 frames (a
genuine mismatch) still passes the check. -/
theorem pusht_C7_length_check_witness :
    (([3, 2] : List Nat) ≠ [] ∧ ([3, 2] : List Nat).dedup.length = 2)
    ∧ lengthCheckPasses [3, 2] = true :=
  ⟨⟨by decide, by decide⟩, pusht_C7_length_check [3, 2] (by decide)⟩

/-- Claim C9: the loop computes labels for every frame, frame 0 included,
but the stored `("next", *)` labels of record `k` are the labels of raw
frame `k + 1`; the stored label index `k + 1` is never 0, so frame 0's
computed labels are discarded, never persisted. -/
theorem pusht_C9_frame0_labels (cov : Pose → ℚ) (eid : Nat)
    (fs : List FrameData) (k : Nat) (h0 : 0 < fs.length)
    (hk : k < fs.length - 1) :
    (episodeRewards cov fs).getD 0 0 = labelReward cov (fs.getD 0 default)
    ∧ (episodeSuccess cov fs).getD 0 false = labelSuccess cov (fs.getD 0 default)
    ∧ ((buildEpisode cov eid fs).getD k default).next_reward =
        labelReward cov (fs.getD (k + 1) default)
    ∧ ((buildEpisode cov eid fs).getD k default).next_success =
        labelSuccess cov (fs.getD (k + 1) default)
    ∧ 0 < k + 1 := by
  have hrec := buildEpisode_getD cov eid fs k hk
  refine ⟨episodeRewards_getD cov fs 0 h0, episodeSuccess_getD cov fs 0 h0,
    ?_, ?_, by omega⟩
  · simp only [hrec]
    exact episodeRewards_getD cov fs (k + 1) (by omega)
  · simp only [hrec]
    exact episodeSuccess_getD cov fs (k + 1) (by omega)

/-- Witness for C9 at record 0 of a concrete 3-frame episode. -/
theorem pusht_C9_frame0_labels_witness :
    (0 < frames3.length ∧ 0 < frames3.length - 1)
    ∧ ((episodeRewards cov0 frames3).getD 0 0 =
        labelReward cov0 (frames3.getD 0 default)
    ∧ (episodeSuccess cov0 frames3).getD 0 false =
        labelSuccess cov0 (frames3.getD 0 default)
    ∧ ((buildEpisode cov0 3 frames3).getD 0 default).next_reward =
        labelReward cov0 (frames3.getD (0 + 1) default)
    ∧ ((buildEpisode cov0 3 frames3).getD 0 default).next_success =
        labelSuccess cov0 (frames3.getD (0 + 1) default)
    ∧ 0 < 0 + 1) :=
  ⟨⟨by decide, by decide⟩,
    pusht_C9_frame0_labels cov0 3 frames3 0 (by decide) (by decide)⟩

/-- Claim C10: with `streaming = False`, passing both `num_slices` and
`slice_len` makes the constructor stop with the `ValueError` before any
download, labeling, or store access (the filesystem component of the
result is returned untouched and no storage is produced); `streaming =
True` stops with `NotImplementedError` before any other work. -/
theorem pusht_C10_init_errors (cov : Pose → ℚ) (raw : RawData)
    (fs0 : Option Store) (num_slices slice_len : Option Nat)
    (split_trajs : Bool) (ns2 sl2 : Option Nat) (st2 : Bool)
    (hns : num_slices.isSome = true) (hsl : slice_len.isSome = true) :
    constructorRun cov raw fs0 false num_slices slice_len split_trajs =
      (.error .slicesValueError, fs0)
    ∧ constructorRun cov raw fs0 true ns2 sl2 st2 =
      (.error .streamingNotImplemented, fs0) := by
  constructor
  · rw [constructorRun, initChecks]
    simp [hns, hsl]
  · rw [constructorRun, initChecks]
    simp

/-- Claim C4: for a valid capture (strictly increasing boundaries ending
at the total frame count), the store's capacity equals the total raw
frame count; the rows written number total frames minus the episode
count, and every index at or beyond that prefix stays unwritten; the
per-episode blocks sit at consecutive offsets starting at 0, episode
`e + 1` starting right after episode `e`, and every record of block `e`
carries episode id `e`. -/
theorem pusht_C4_store_layout (cov : Pose → ℚ) (raw : RawData) (e k i : Nat)
    (hchain : List.Chain' (· < ·) (0 :: raw.episodeEnds))
    (hb : ∀ x ∈ raw.episodeEnds, x ≤ raw.frames.length)
    (hlast : raw.episodeEnds.getLastD 0 = raw.frames.length)
    (he : e < raw.episodeEnds.length)
    (hk : k < ((storeBlocks cov raw).getD e []).length)
    (hi : raw.frames.length - raw.episodeEnds.length ≤ i) :
    (download_and_preproc cov raw).data.length = raw.frames.length
    ∧ (storeBlocks cov raw).length = raw.episodeEnds.length
    ∧ writtenCount (download_and_preproc cov raw) + raw.episodeEnds.length =
        raw.frames.length
    ∧ (download_and_preproc cov raw).data.getD i none = none
    ∧ blockStart (storeBlocks cov raw) 0 = 0
    ∧ blockStart (storeBlocks cov raw) (e + 1) =
        blockStart (storeBlocks cov raw) e + ((storeBlocks cov raw).getD e []).length
    ∧ (download_and_preproc cov raw).data.getD
        (blockStart (storeBlocks cov raw) e + k) none =
        some (((storeBlocks cov raw).getD e []).getD k default)
    ∧ (((storeBlocks cov raw).getD e []).getD k default).episode = e := by
  have hflatlen : ((storeBlocks cov raw).flatten).length + raw.episodeEnds.length + 0 =
      raw.episodeEnds.getLastD 0 :=
    flatLen_valid cov raw.frames raw.episodeEnds 0 0 hchain hb
  rw [hlast] at hflatlen
  have hlen : ((storeBlocks cov raw).flatten).length ≤ raw.frames.length := by omega
  have hdata := preproc_data_eq cov raw hlen
  have hblen : (storeBlocks cov raw).length = raw.episodeEnds.length :=
    epBlocks_length cov raw.frames raw.episodeEnds 0 0
  have he' : e < (storeBlocks cov raw).length := by omega
  refine ⟨?_, hblen, ?_, ?_, blockStart_zero _, blockStart_succ _ e he', ?_, ?_⟩
  · rw [hdata]
    simp only [List.length_append, List.length_map, List.length_replicate]
    omega
  · rw [writtenCount_preproc cov raw hlen]
    omega
  · rw [hdata, List.getD_eq_getElem?_getD,
      List.getElem?_append_right (by rw [List.length_map]; omega),
      List.getElem?_replicate]
    split
    · rfl
    · rfl
  · have hlt : blockStart (storeBlocks cov raw) e + k <
        ((storeBlocks cov raw).flatten).length := by
      have := blockStart_add_le (storeBlocks cov raw) e he'
      omega
    rw [hdata, List.getD_eq_getElem?_getD,
      List.getElem?_append_left (by rw [List.length_map]; exact hlt),
      List.getElem?_map, List.getElem?_eq_getElem hlt]
    have hfg := flatten_getD default (storeBlocks cov raw) e k he' hk
    rw [List.getD_eq_getElem _ default hlt] at hfg
    rw [hfg]
    rfl
  · have hblock := epBlocks_getD cov raw.frames raw.episodeEnds 0 0 e he
    have hk' := hk
    rw [show storeBlocks cov raw = epBlocks cov raw.frames raw.episodeEnds 0 0
      from rfl, hblock, length_buildEpisode] at hk'
    rw [show storeBlocks cov raw = epBlocks cov raw.frames raw.episodeEnds 0 0
      from rfl, hblock, buildEpisode_getD cov (0 + e) _ k hk']
    simp

/-- Witness for C4 at the concrete 2-episode capture, block 1, record 2,
slack index 8. -/
theorem pusht_C4_store_layout_witness :
    (List.Chain' (· < ·) (0 :: raw10.episodeEnds)
      ∧ (∀ x ∈ raw10.episodeEnds, x ≤ raw10.frames.length)
      ∧ raw10.episodeEnds.getLastD 0 = raw10.frames.length
      ∧ 1 < raw10.episodeEnds.length
      ∧ 2 < ((storeBlocks cov0 raw10).getD 1 []).length
      ∧ raw10.frames.length - raw10.episodeEnds.length ≤ 8)
    ∧ ((download_and_preproc cov0 raw10).data.length = raw10.frames.length
    ∧ (storeBlocks cov0 raw10).length = raw10.episodeEnds.length
    ∧ writtenCount (download_and_preproc cov0 raw10) + raw10.episodeEnds.length =
        raw10.frames.length
    ∧ (download_and_preproc cov0 raw10).data.getD 8 none = none
    ∧ blockStart (storeBlocks cov0 raw10) 0 = 0
    ∧ blockStart (storeBlocks cov0 raw10) (1 + 1) =
        blockStart (storeBlocks cov0 raw10) 1 +
          ((storeBlocks cov0 raw10).getD 1 []).length
    ∧ (download_and_preproc cov0 raw10).data.getD
        (blockStart (storeBlocks cov0 raw10) 1 + 2) none =
        some (((storeBlocks cov0 raw10).getD 1 []).getD 2 default)
    ∧ (((storeBlocks cov0 raw10).getD 1 []).getD 2 default).episode = 1) :=
  ⟨⟨by simp [raw10, ends2, List.chain'_cons], by decide, by decide, by decide,
      by decide, by decide⟩,
    pusht_C4_store_layout cov0 raw10 1 2 8
      (by simp [raw10, ends2, List.chain'_cons]) (by decide) (by decide)
      (by decide) (by decide) (by decide)⟩

/-- Claim C5 counterexample: on the concrete capture with 2 episodes of 5
frames each, the sealed store returned by the build has 10 rows (the full
reserved capacity), not the 8 transition records written — the handle
covers the whole locked `td_data`, not just the written prefix. -/
theorem pusht_C5_store_rows_counterexample :
    num_samples store10 = 10 ∧ writtenCount store10 = 8
    ∧ ¬ num_samples store10 = writtenCount store10 := by
  refine ⟨by decide, by decide, by decide⟩

/-- Claim C5 amended: after the final episode the build locks the store
and returns a handle over the full reserved capacity (total raw frames),
of which only the written prefix holds records: for the 2-episodes-of-5
capture the store has 10 rows with 8 written, row 3 (0-indexed) has
`done = true` and episode id 0, row 7 has `done = true` and episode id 1,
and rows 8 and 9 are unwritten slack. -/
theorem pusht_C5_store_rows_amended :
    num_samples store10 = 10 ∧ writtenCount store10 = 8
    ∧ (store10.data.getD 3 none).map (fun r => (r.next_done, r.episode)) =
        some (true, 0)
    ∧ (store10.data.getD 7 none).map (fun r => (r.next_done, r.episode)) =
        some (true, 1)
    ∧ store10.data.getD 8 none = none
    ∧ store10.data.getD 9 none = none := by
  refine ⟨by decide, by decide, by decide, by decide, by decide, by decide⟩

/-- Witness for C10 at concrete constructor arguments. -/
theorem pusht_C10_init_errors_witness :
    ((some 4 : Option Nat).isSome = true ∧ (some 3 : Option Nat).isSome = true)
    ∧ (constructorRun cov0 raw10 none false (some 4) (some 3) false =
        (.error .slicesValueError, none)
    ∧ constructorRun cov0 raw10 none true none none false =
        (.error .streamingNotImplemented, none)) :=
  ⟨⟨rfl, rfl⟩,
    pusht_C10_init_errors cov0 raw10 none (some 4) (some 3) false none none false
      rfl rfl⟩

end Pusht

